import Mathlib

/-!
Verification of the Quiz Funnel Runner decision engine.

Shallow embedding of:
* the screen classifier (`classifyScreen` in the classifier module),
* the option-selection policy of the action dispatcher
  (`clickOptionWithLabel`, `clickFirstOptionButton`, `clickFirstOptionCard`
  in `src/navigator/stepHandler.ts`),
* the email-archetype dispatcher branch (`handleStepAction`,
  `runEmailSubmitChain`),
* the funnel driver loop (`runFunnel`).

Documents are modelled by the probe results the code extracts from the page:
textual probes (page content, body text, control texts) are kept as strings
and the lexical tests of the source (regular expressions that are
alternations of literals, prefix anchors or full anchors) are implemented
over character lists; purely structural probes (element counts, visibility,
computed style) are fields of the document model, since they are answered by
the external browser collaborator.
-/

/-! ## Character and string utilities (JS regex / string primitives) -/

/-- JS whitespace class `\s` restricted to the characters that occur in the
inputs of interest. -/
def isWsChar (c : Char) : Bool :=
  c == ' ' || c == '\t' || c == '\n' || c == '\r'

/-- Lowercased character list of a string (JS `.toLowerCase()`; ASCII). -/
def lcs (s : String) : List Char := s.data.map Char.toLower

/-- Whether `pat` is a prefix of `s`. -/
def isPrefixL : List Char → List Char → Bool
  | [], _ => true
  | _ :: _, [] => false
  | a :: as, b :: bs => a == b && isPrefixL as bs

/-- Whether `pat` occurs as a contiguous substring of `s` (JS `String.includes` /
an unanchored literal regex alternative). -/
def containsSub (pat : List Char) : List Char → Bool
  | [] => isPrefixL pat []
  | c :: rest => isPrefixL pat (c :: rest) || containsSub pat rest

/-- Whether `a` occurs and, somewhere at or after the end of that occurrence, `b`
occurs (the JS regex fragment `a.*b` on newline-free text). -/
def containsSeq (a b : List Char) : List Char → Bool
  | [] => false
  | c :: rest =>
    (isPrefixL a (c :: rest) && containsSub b ((c :: rest).drop a.length))
      || containsSeq a b rest

/-- One step of whitespace-run collapsing (JS `.replace(/\s+/g, " ")`). -/
def collapseWsStep (acc : List Char × Bool) (c : Char) : List Char × Bool :=
  if isWsChar c then
    if acc.2 then acc else (' ' :: acc.1, true)
  else (c :: acc.1, false)

/-- Collapse every whitespace run to a single space. -/
def collapseWs (l : List Char) : List Char :=
  ((l.foldl collapseWsStep ([], false)).1).reverse

/-- Trim leading and trailing whitespace (JS `.trim()`). -/
def trimWs (l : List Char) : List Char :=
  ((l.dropWhile isWsChar).reverse.dropWhile isWsChar).reverse

/-- Does any word of `words` occur in `t` (regex alternation of literals,
unanchored)? -/
def anyWordIn (words : List String) (t : List Char) : Bool :=
  words.any (fun w => containsSub w.data t)

/-! ## Monetary amount pattern

The classifier counts global matches of `/(\$|€|£|usd|eur)\s*\d+/gi` over the
lowercased page content.  A match consumes a currency token, optional
whitespace and a maximal digit run; the scan resumes after each match. -/

/-- Length of the currency token `(\$|€|£|usd|eur)` at the head, if any. -/
def currencyLen : List Char → Option Nat
  | '$' :: _ => some 1
  | '€' :: _ => some 1
  | '£' :: _ => some 1
  | 'u' :: 's' :: 'd' :: _ => some 3
  | 'e' :: 'u' :: 'r' :: _ => some 3
  | _ => none

/-- Number of characters consumed by a price match starting at the head of
`s`, if the pattern matches there. -/
def priceMatchLen (s : List Char) : Option Nat :=
  match currencyLen s with
  | none => none
  | some k =>
    let afterCur := s.drop k
    let wsN := (afterCur.takeWhile isWsChar).length
    let afterWs := afterCur.drop wsN
    let dN := (afterWs.takeWhile Char.isDigit).length
    if dN = 0 then none else some (k + wsN + dN)

/-- Fuel-indexed scan counting non-overlapping price matches; every step
consumes at least one character, so fuel `s.length` is exact. -/
def countPricesAux : Nat → List Char → Nat
  | 0, _ => 0
  | _ + 1, [] => 0
  | fuel + 1, c :: rest =>
    match priceMatchLen (c :: rest) with
    | some k => countPricesAux fuel ((c :: rest).drop k) + 1
    | none => countPricesAux fuel rest

/-- Number of matches of the monetary-amount pattern in `s`. -/
def countPrices (s : List Char) : Nat := countPricesAux s.length s

/-! ## Vocabulary of the classifier (alternation literals of the source) -/

/-- The `paywallKeywords` regex alternatives (purchase / subscription CTA). -/
def paywallKeywordWords : List String :=
  ["subscribe", "buy now", "purchase", "continue to payment", "start my plan",
   "get my plan", "unlock", "try now", "start plan", "see your plan",
   "show my plan", "get plan", "get access"]

/-- Does a control text match the `paywallKeywords` regex (case-insensitive,
unanchored)? -/
def paywallKeywordTest (t : String) : Bool :=
  anyWordIn paywallKeywordWords (lcs t)

/-- The `per\s*month` alternative of the billing-vocabulary regex, anchored at
the head of `s`. -/
def perMonthAt (s : List Char) : Bool :=
  isPrefixL ("per".data) s
    && isPrefixL ("month".data) ((s.drop 3).dropWhile isWsChar)

/-- Whether `per\s*month` occurs anywhere in `s`. -/
def containsPerMonth : List Char → Bool
  | [] => false
  | c :: rest => perMonthAt (c :: rest) || containsPerMonth rest

/-- The `hasPaywallText` regex of the classifier over the lowercased content. -/
def paywallTextVocab (c : List Char) : Bool :=
  containsSub ("subscription".data) c || containsPerMonth c
    || anyWordIn
      ["your plan", "unlock your plan", "choose your plan",
       "personalized plan", "show my plan", "see your plan", "get your plan",
       "premium", "trial"] c

/-- Broad commerce vocabulary of the `aggressivePaywall` rule. -/
def aggressiveVocab (c : List Char) : Bool :=
  anyWordIn ["start", "subscribe", "buy", "continue", "unlock", "get access"] c

/-- Subscription vocabulary of the `lateStageSoftPaywall` rule. -/
def lateSoftVocab (c : List Char) : Bool :=
  anyWordIn
    ["subscription", "per month", "your plan", "choose your plan",
     "unlock your plan", "premium", "trial"] c

/-- Urgency/offer vocabulary of the `lateStagePriceOfferPaywall` rule. -/
def lateOfferVocab (c : List Char) : Bool :=
  anyWordIn
    ["today", "limited", "offer", "save", "off", "discount", "trial",
     "month", "week", "year", "billed", "payment", "checkout", "access"] c

/-- The `inputKeywords` regex over the normalized body text (case-insensitive;
two alternatives use `.*`). -/
def inputKeywordsTest (body : List Char) : Bool :=
  let b := body.map Char.toLower
  containsSub ("your height".data) b || containsSub ("your weight".data) b
    || containsSub ("your age".data) b || containsSub ("how old".data) b
    || containsSub ("how tall".data) b
    || containsSeq ("what".data) ("height".data) b
    || containsSeq ("what".data) ("weight".data) b
    || containsSub ("enter your name".data) b
    || containsSub ("your name".data) b

/-- Anchored prefix alternatives of the classifier `navCta` regex
(`settings?` is covered by the prefix `setting`). -/
def navCtaClassifierPrefixes : List String :=
  ["accept", "reject", "allow", "agree", "cookie", "close", "skip",
   "setting", "einstellung", "datenschutz", "terms", "privacy", "ablehnen",
   "akzeptieren"]

/-- The `navCta` regex of `clickFirstOptionButton` adds the `adjust`
alternative. -/
def navCtaHandlerPrefixes : List String :=
  ["accept", "reject", "allow", "agree", "cookie", "close", "skip",
   "setting", "einstellung", "datenschutz", "terms", "privacy", "ablehnen",
   "akzeptieren", "adjust"]

/-- Fully anchored language names of the `languageOption` regex. -/
def languageOptionWords : List String :=
  ["english", "espanol", "español", "deutsch", "francais", "français",
   "italiano", "portuguese", "português", "polski", "nederlands", "turkce",
   "tuerkce", "turkish", "ukrainian", "русский", "russian"]

/-- Anchored-prefix test (`^(p1|p2|…)` with `.test`, case-insensitive). -/
def navCtaTest (prefixes : List String) (t : List Char) : Bool :=
  prefixes.any (fun p => isPrefixL p.data (t.map Char.toLower))

/-- Full-string language-name test (`^(…)$` with `.test`). -/
def languageOptionTest (t : List Char) : Bool :=
  languageOptionWords.any (fun w => t.map Char.toLower == w.data)

/-! ## Document model and screen classifier -/

/-- The `ScreenType` enumeration of the classifier module. -/
inductive ScreenType
  | question
  | info
  | input
  | email
  | paywall
  | other
deriving DecidableEq

/-- The `ScreenClassification` record (type plus reason). -/
structure ScreenClassification where
  type : ScreenType
  reason : String
deriving DecidableEq

/-- Snapshot of the read-only probes `classifyScreen` performs on a page.
Lexical probes keep the raw text; structural probes (element counts,
visibility) are the counts the browser collaborator reports. -/
structure Doc where
  /-- Raw markup text of `page.content()` (the classifier lowercases it). -/
  content : String
  /-- Texts of the `button, [role=button], a, input[type=submit]` elements
  (the locator filtered by `paywallKeywords` to get `paywallCtaCount`). -/
  ctaTexts : List String
  /-- The `innerText` of each `button:visible, [role=button]:visible` element,
  in document order (used by `countOptionLikeButtons` and the info rule
  CTA count). -/
  visibleButtonTexts : List String
  /-- Whether `input[type=email]` exists. -/
  hasEmailType : Bool
  /-- Whether `input[autocomplete*=email i]` exists. -/
  hasEmailAutocomplete : Bool
  /-- Whether `input[name*=email i]` exists. -/
  hasEmailName : Bool
  /-- Whether `input[placeholder*=mail i]` exists. -/
  hasEmailPlaceholder : Bool
  /-- Count of `input[type=radio], [role=radio]`. -/
  radioCount : Nat
  /-- Count of `input[type=checkbox], [role=checkbox]`. -/
  checkboxCount : Nat
  /-- Count of `input[type=text]:visible, input[type=number]:visible`. -/
  visibleTextInputCount : Nat
  /-- Count of inputs whose placeholder hints at height/weight/age/name. -/
  profileHintInputCount : Nat
  /-- Body text `page.innerText("body")` before normalization. -/
  bodyTextRaw : String
  /-- Result of `countClickableOptionCards` (pointer-cursor card walk,
  answered by the in-page script collaborator). -/
  optionCardCount : Nat
  /-- Whether the `input:visible, textarea:visible, select:visible` count is positive. -/
  hasAnyVisibleInput : Bool

/-- Normalized body text: `replace(/\s+/g, " ").trim()`. -/
def bodyTextChars (d : Doc) : List Char :=
  trimWs (collapseWs d.bodyTextRaw.data)

/-- The `priceMatches.length` count over the lowercased content. -/
def priceMatchCount (d : Doc) : Nat := countPrices (lcs d.content)

/-- The `paywallCtaCount` probe: controls whose text matches `paywallKeywords`. -/
def paywallCtaCount (d : Doc) : Nat :=
  (d.ctaTexts.filter (fun t => paywallKeywordTest t)).length

/-- The `hasPaywallText` boolean of the classifier. -/
def hasPaywallTextB (d : Doc) : Bool := paywallTextVocab (lcs d.content)

/-- The `aggressivePaywall` rule: step ≥ 10, a price, a purchase control, broad
commerce vocabulary. -/
def aggressivePaywallB (d : Doc) (step : Nat) : Bool :=
  decide (10 ≤ step) && decide (1 ≤ priceMatchCount d)
    && decide (1 ≤ paywallCtaCount d) && aggressiveVocab (lcs d.content)

/-- The `lateStageSoftPaywall` rule: step ≥ 20, a purchase control, subscription
vocabulary — no price needed. -/
def lateStageSoftPaywallB (d : Doc) (step : Nat) : Bool :=
  decide (20 ≤ step) && decide (1 ≤ paywallCtaCount d)
    && lateSoftVocab (lcs d.content)

/-- The `lateStagePriceOfferPaywall` rule: step ≥ 15, a price, urgency vocabulary. -/
def lateStagePriceOfferPaywallB (d : Doc) (step : Nat) : Bool :=
  decide (15 ≤ step) && decide (1 ≤ priceMatchCount d)
    && lateOfferVocab (lcs d.content)

/-- The `strongPaywallSignal` disjunction, in source order. -/
def strongPaywallSignalB (d : Doc) (step : Nat) : Bool :=
  aggressivePaywallB d step || lateStageSoftPaywallB d step
    || (decide (1 ≤ paywallCtaCount d)
        && (decide (2 ≤ priceMatchCount d)
            || (decide (1 ≤ priceMatchCount d) && hasPaywallTextB d)))
    || lateStagePriceOfferPaywallB d step

/-- The email rule matches: one of the four email-flavoured input probes. -/
def emailSignalB (d : Doc) : Bool :=
  d.hasEmailType || d.hasEmailAutocomplete || d.hasEmailName
    || d.hasEmailPlaceholder

/-- The `hasRadioOrCheckbox` probe. -/
def hasRadioOrCheckboxB (d : Doc) : Bool :=
  decide (1 ≤ d.radioCount) || decide (1 ≤ d.checkboxCount)

/-- One step of the candidate scan of `countOptionLikeButtons`: trim the
text, require a non-empty text shorter than 40 characters that is not a
navigation CTA, and tally language names separately. -/
def countOptionLikeButtonsStep (acc : Nat × Nat) (raw : String) : Nat × Nat :=
  let t := trimWs raw.data
  if 0 < t.length ∧ t.length < 40
      ∧ navCtaTest navCtaClassifierPrefixes t = false then
    if languageOptionTest t then (acc.1, acc.2 + 1) else (acc.1 + 1, acc.2)
  else acc

/-- The `countOptionLikeButtons` scan: at most 20 visible buttons; a cluster of
≥ 4 language names with ≤ 2 other options is a language switcher and counts
as zero. -/
def countOptionLikeButtons (btns : List String) : Nat :=
  let p := (btns.take 20).foldl countOptionLikeButtonsStep (0, 0)
  if 4 ≤ p.2 ∧ p.1 ≤ 2 then 0 else p.1

/-- The `classifyScreen(page, step)` priority chain of the classifier;
first matching rule wins. -/
def classifyScreen (d : Doc) (step : Nat) : ScreenClassification :=
  if decide (1 < step) && strongPaywallSignalB d step then
    { type := ScreenType.paywall,
      reason := "Found " ++ toString (priceMatchCount d)
        ++ " price(s), billing terms, and paywall CTA." }
  else if d.hasEmailType then
    { type := ScreenType.email, reason := "Detected input[type=email]." }
  else if d.hasEmailAutocomplete then
    { type := ScreenType.email,
      reason := "Detected input[autocomplete*=email]." }
  else if d.hasEmailName then
    { type := ScreenType.email, reason := "Detected input[name*=email]." }
  else if d.hasEmailPlaceholder then
    { type := ScreenType.email,
      reason := "Detected input[placeholder*=mail]." }
  else if !hasRadioOrCheckboxB d
      && (decide (1 ≤ d.visibleTextInputCount)
          || decide (1 ≤ d.profileHintInputCount)) then
    { type := ScreenType.input,
      reason := "Found form fields for profile/data (no radio/checkbox)." }
  else if !hasRadioOrCheckboxB d && inputKeywordsTest (bodyTextChars d) then
    { type := ScreenType.input,
      reason := "Body text mentions profile data input (height/weight/age/name)." }
  else if decide (2 ≤ d.radioCount) || decide (2 ≤ d.checkboxCount)
      || decide (2 ≤ d.radioCount + d.checkboxCount) then
    { type := ScreenType.question,
      reason := "Found " ++ toString (d.radioCount + d.checkboxCount)
        ++ " radio/checkbox options." }
  else if decide (2 ≤ countOptionLikeButtons d.visibleButtonTexts) then
    { type := ScreenType.question,
      reason := "Found " ++ toString (countOptionLikeButtons d.visibleButtonTexts)
        ++ " option-like buttons (no radio/checkbox)." }
  else if decide (2 ≤ d.optionCardCount) then
    { type := ScreenType.question,
      reason := "Found " ++ toString d.optionCardCount
        ++ " clickable option cards." }
  else if !d.hasAnyVisibleInput && decide (d.radioCount + d.checkboxCount = 0)
      && decide (d.visibleButtonTexts.length = 1)
      && decide (20 < (bodyTextChars d).length) then
    { type := ScreenType.info,
      reason := "Text screen with exactly one CTA button and no inputs/options." }
  else
    { type := ScreenType.other, reason := "No MVP heuristic matched." }

/-! ## Option-selection policy of the dispatcher

`stepHandler.ts` keeps one module-level rotation cursor
(`let fallbackOptionShift = 0`) shared by the radio/checkbox selector
(`clickOptionWithLabel`) and the button selector (`clickFirstOptionButton`).
The card selector (`clickFirstOptionCard`) selects inside an in-page script
and does not touch the cursor.  Each selector is modelled by its choice
core: given the candidate label texts (and, where used, the current cursor)
it returns the chosen candidate position. -/

/-- The `SMART_KEYWORDS` list of `stepHandler.ts`. -/
def SMART_KEYWORDS : List String :=
  ["personal", "custom", "plan", "result", "my", "recommend", "tailored",
   "detailed", "unlock", "see", "show"]

/-- First candidate position whose lowercased text contains a smart
keyword. -/
def smartIndexAux : Nat → List String → Option Nat
  | _, [] => none
  | i, t :: rest =>
    if SMART_KEYWORDS.any (fun k => containsSub k.data (lcs t)) then some i
    else smartIndexAux (i + 1) rest

/-- Position of the first smart-keyword candidate, if any. -/
def smartIndex (cands : List String) : Option Nat := smartIndexAux 0 cands

/-- Initial value of the module-level rotation cursor. -/
def fallbackOptionShiftInit : Nat := 0

/-- Choice core of `clickOptionWithLabel` (radio/checkbox): smart keyword
first; else, with ≥ 2 candidates, rotate `fallbackOptionShift` modulo
`min(count, 4)` and advance the cursor; else the sole candidate.  Returns
the chosen candidate position and the new cursor value. -/
def chooseOptionWithLabel (shift : Nat) (cands : List String) :
    Option Nat × Nat :=
  match smartIndex cands with
  | some i => (some i, shift)
  | none =>
    if 2 ≤ cands.length then
      let cap := Nat.min cands.length 4
      (some (shift % cap), shift + 1)
    else if 1 ≤ cands.length then (some 0, shift)
    else (none, shift)

/-- Candidate filter of `clickFirstOptionButton`: scan at most 20 visible
buttons, keep non-empty texts shorter than 60 characters that are not
navigation CTAs, tallying language names separately.  Returns the kept
candidate texts (trimmed) and the language-name count. -/
def collectButtonCandidates (btns : List String) : List String × Nat :=
  (btns.take 20).foldl
    (fun acc raw =>
      let t := trimWs raw.data
      if 0 < t.length ∧ t.length < 60
          ∧ navCtaTest navCtaHandlerPrefixes t = false then
        if languageOptionTest t then (acc.1, acc.2 + 1)
        else (acc.1 ++ [String.mk t], acc.2)
      else acc)
    ([], 0)

/-- Choice core of `clickFirstOptionButton` over the collected candidates:
identical policy to the radio/checkbox selector, sharing the same cursor. -/
def chooseButtonCandidate (shift : Nat) (cands : List String) :
    Option Nat × Nat :=
  match smartIndex cands with
  | some i => (some i, shift)
  | none =>
    if 2 ≤ cands.length then
      let cap := Nat.min cands.length 4
      (some (shift % cap), shift + 1)
    else if 1 ≤ cands.length then (some 0, shift)
    else (none, shift)

/-- Choice core of the in-page script of `clickFirstOptionCard`: smart
keyword first; else, with ≥ 2 candidates, always the second card
(`results[1]`); else the sole card.  The rotation cursor is not consulted
and not advanced. -/
def chooseOptionCard (cands : List String) : Option Nat :=
  match smartIndex cands with
  | some i => some i
  | none =>
    if 2 ≤ cands.length then some 1
    else if 1 ≤ cands.length then some 0
    else none

/-- Cursor value after `k` consecutive ambiguous selections through
`clickOptionWithLabel` on the same candidate list, starting from process
start. -/
def cursorAfter (cands : List String) : Nat → Nat
  | 0 => fallbackOptionShiftInit
  | k + 1 => (chooseOptionWithLabel (cursorAfter cands k) cands).2

/-- Candidate position chosen by the `k`-th (0-based) consecutive ambiguous
selection. -/
def chosenAt (cands : List String) (k : Nat) : Option Nat :=
  (chooseOptionWithLabel (cursorAfter cands k) cands).1

/-! ## Email-archetype dispatcher branch

`handleStepAction` for `email` runs `runEmailSubmitChain` (fill the email
field, blur + Enter, submit-control click, generic submit, JS form submit —
stopping at the first observed snapshot change), then consent-checkbox
handling, then a continue-CTA click.  `performed` is computed from the
continue click and from whether any chain message contains
`"Transition detected"`.  The page-dependent outcomes of the individual
probes and clicks are the fields of `EmailEnv`. -/

/-- The `INPUT_DEFAULTS` record shape from `config.ts`. -/
structure InputDefaults where
  name : String
  height : String
  weight : String
  age : String
  email : String

/-- The configured default form values. -/
def INPUT_DEFAULTS : InputDefaults :=
  { name := "John", height := "170", weight := "65", age := "30",
    email := "test@example.com" }

/-- The `ActionResult` record of `stepHandler.ts`. -/
structure ActionResult where
  performed : Bool
  messages : List String
deriving DecidableEq

/-- Page-dependent observations made by the email dispatcher branch. -/
structure EmailEnv where
  /-- The chain locator `input[type=email], input[placeholder*=email i]`
  finds a visible first element. -/
  chainEmailVisible : Bool
  /-- Snapshot after blur + Enter differs from the pre-submit snapshot. -/
  afterEnterChanged : Bool
  /-- The submission-vocabulary submit button exists and is visible. -/
  submitButtonVisible : Bool
  /-- Clicking that submit button succeeded. -/
  submitClickOk : Bool
  /-- Snapshot after the submit-button click differs from the pre-submit
  snapshot. -/
  afterCtaChanged : Bool
  /-- A generic `button[type=submit], input[type=submit]` exists and is
  visible. -/
  genericSubmitVisible : Bool
  /-- Clicking the generic submit control succeeded. -/
  genericClickOk : Bool
  /-- Snapshot after the generic submit click differs from the pre-submit
  snapshot. -/
  afterGenericChanged : Bool
  /-- Whether `document.querySelector("form")` is a form element. -/
  jsFormFound : Bool
  /-- Count of `input[type=email]` elements. -/
  emailTypeCount : Nat
  /-- The first `input[type=email]` is visible. -/
  emailTypeVisible : Bool
  /-- The email-like text-input fallback locator finds an element. -/
  emailLikeFallbackFound : Bool
  /-- Whether `fillEmailByHints` found a visible email-like input and filled it. -/
  hintEmailFillOk : Bool
  /-- Audit messages produced by `fillInputByHints` (deep fallback; the
  fields filled depend on the page). -/
  hintFillMessages : List String
  /-- Count of `label:has(input[type=checkbox])` wrappers. -/
  consentLabelCount : Nat
  /-- Per checkbox (when no label wrappers exist): `true` when it is not
  already checked, so the ancestor-click fires. -/
  consentUnchecked : List Bool
  /-- Whether `clickContinue` succeeded. -/
  continueClickOk : Bool
  /-- Messages of `closeCommonPopups` at the start of the step. -/
  popupMessages : List String

/-- The `runEmailSubmitChain` procedure: fill and submit, stopping at the first observed
snapshot change; returns the audit messages. -/
def runEmailSubmitChain (e : EmailEnv) : List String :=
  let m1 :=
    if e.chainEmailVisible then
      ["Filled email=" ++ INPUT_DEFAULTS.email, "Triggered blur + Enter."]
    else []
  if e.afterEnterChanged then m1 ++ ["Transition detected after Enter."]
  else
    let m2 :=
      if e.submitButtonVisible && e.submitClickOk then
        m1 ++ ["Clicked email submit button."]
      else m1
    if e.submitButtonVisible && e.submitClickOk && e.afterCtaChanged then
      m2 ++ ["Transition detected after email CTA click."]
    else
      let m3 :=
        if e.genericSubmitVisible && e.genericClickOk then
          m2 ++ ["Clicked generic submit control."]
        else m2
      if e.genericSubmitVisible && e.genericClickOk
          && e.afterGenericChanged then
        m3 ++ ["Transition detected after generic submit click."]
      else
        if e.jsFormFound then m3 ++ ["Submitted form via JS fallback."]
        else m3

/-- The `submitEmailStep` procedure: the submit chain, plus descriptor-hint filling when
no `input[type=email]` exists at all. -/
def submitEmailStep (e : EmailEnv) : List String :=
  let messages := runEmailSubmitChain e
  if e.emailTypeCount = 0 then
    if e.hintEmailFillOk then
      messages ++ ["Filled email-like input by descriptor hints."]
    else messages
  else messages

/-- The marker searched for in the chain messages. -/
def transitionToken : String := "Transition detected"

/-- Consent-checkbox handling of the email branch: click every label
wrapper; with no wrappers, click an ancestor of every unchecked checkbox
(the in-page click always reports success). -/
def consentMessages (e : EmailEnv) : List String :=
  if 0 < e.consentLabelCount then
    (List.range e.consentLabelCount).map
      (fun i => "Clicked consent label " ++ toString (i + 1) ++ ".")
  else
    ((List.range e.consentUnchecked.length).filter
        (fun i => e.consentUnchecked.getD i false)).map
      (fun i => "Clicked consent checkbox " ++ toString (i + 1)
        ++ " via ancestor.")

/-- The `handleStepAction` branch for the `email` archetype. -/
def handleEmailAction (e : EmailEnv) : ActionResult :=
  let base := e.popupMessages
  if 0 < e.emailTypeCount ∧ e.emailTypeVisible = true then
    let emailMessages := submitEmailStep e
    let m := base ++ emailMessages ++ consentMessages e
    let m :=
      if e.continueClickOk then m ++ ["Clicked continue/next."] else m
    { performed := e.continueClickOk
        || emailMessages.any
          (fun s => containsSub transitionToken.data s.data),
      messages := m }
  else
    let base1 := base
      ++ ["Email screen has no input[type=email]. Using email-like text input fallback."]
    let (pre, emailMessages) :=
      if e.emailLikeFallbackFound then
        (base1,
         ["Filled email=" ++ INPUT_DEFAULTS.email ++ " (text input fallback)."])
      else (base1 ++ e.hintFillMessages, e.hintFillMessages)
    let m := pre ++ emailMessages ++ consentMessages e
    let m :=
      if e.continueClickOk then m ++ ["Clicked continue/next."] else m
    { performed := e.continueClickOk
        || emailMessages.any
          (fun s => containsSub transitionToken.data s.data),
      messages := m }

/-- The disjunction of the three snapshot-change observations at which the
submit chain reports a transition (the chain stops at the first one, so
some chain message contains the marker exactly when this holds). -/
def chainTransitionObserved (e : EmailEnv) : Bool :=
  e.afterEnterChanged
    || (e.submitButtonVisible && e.submitClickOk && e.afterCtaChanged)
    || (e.genericSubmitVisible && e.genericClickOk && e.afterGenericChanged)

/-! ## Question-archetype dispatcher branch -/

/-- Page-dependent observations made by the question dispatcher branch. -/
structure QuestionEnv where
  /-- Count of radio/checkbox (native or ARIA) controls. -/
  radioOrCheckboxCount : Nat
  /-- Whether `clickOptionWithLabel` clicked an option. -/
  optionLabelClicked : Bool
  /-- Its audit messages. -/
  optionLabelMessages : List String
  /-- Whether `clickFirstOptionButton` clicked an option. -/
  optionButtonClicked : Bool
  /-- Its audit messages. -/
  optionButtonMessages : List String
  /-- Whether `clickFirstOptionCard` clicked a card. -/
  optionCardClicked : Bool
  /-- Its audit messages. -/
  optionCardMessages : List String
  /-- Whether `clickQuestionCta` clicked a strict CTA. -/
  questionCtaClicked : Bool
  /-- Messages of `closeCommonPopups` at the start of the step. -/
  popupMessages : List String

/-- The `handleStepAction` branch for the `question` archetype: option selection
(radio/checkbox, else buttons, else cards), then a strict CTA click, with
an unconditional Enter-key fallback when no CTA is found;
`performed = option ∨ CTA ∨ Enter fallback`. -/
def handleQuestionAction (e : QuestionEnv) : ActionResult :=
  let m1 := e.popupMessages ++ e.optionLabelMessages
  let clickedA := e.optionLabelClicked
  let pB :=
    if clickedA = false ∧ e.radioOrCheckboxCount = 0 then
      (e.optionButtonClicked, m1 ++ e.optionButtonMessages)
    else (clickedA, m1)
  let pC :=
    if pB.1 = false ∧ e.radioOrCheckboxCount = 0 then
      (e.optionCardClicked, pB.2 ++ e.optionCardMessages)
    else pB
  if e.questionCtaClicked then
    { performed := pC.1 || e.questionCtaClicked || false,
      messages := pC.2 ++ ["Clicked strict question CTA."] }
  else
    { performed := pC.1 || e.questionCtaClicked || true,
      messages := pC.2 ++ ["Pressed Enter as question CTA fallback."] }

/-! ## Funnel driver loop

`runFunnel` iterates `for (step = 1; step <= maxSteps + 15; step += 1)` with
two budget gates (`maxSteps` before an email screen has been seen,
`maxSteps + 15` after), classification with a forced non-paywall override on
step 1, a paywall short-circuit, fingerprint-based loop detection with two
Enter-key rescues, action dispatch and the consecutive-no-action stop.  The
environment supplies, per step, the classification, the fingerprints and the
dispatcher outcome; fingerprints are abstract values compared for equality
only. -/

/-- The `RUN_CONFIG` record shape from `config.ts`. -/
structure RunConfig where
  maxSteps : Nat
  sameDomHashLimit : Nat
  actionRetryCount : Nat
  defaultTimeoutMs : Nat

/-- The configured run constants. -/
def RUN_CONFIG : RunConfig :=
  { maxSteps := 60, sameDomHashLimit := 12, actionRetryCount := 1,
    defaultTimeoutMs := 20000 }

/-- Per-step observations of one funnel run: what the classifier returns,
the document fingerprints (including the re-fingerprints after the two
Enter rescues) and whether the dispatcher performed an action. -/
structure DriverEnv where
  /-- The `classifyScreen(page, step).type` result at each step. -/
  classify : Nat → ScreenType
  /-- The `getStableDomSnapshot` fingerprint at each step. -/
  hash : Nat → Nat
  /-- Re-fingerprint after the stuck-email Enter rescue. -/
  emailRescueHash : Nat → Nat
  /-- Re-fingerprint after the pre-loop-stop Enter rescue. -/
  loopRescueHash : Nat → Nat
  /-- The `handleStepAction(page, type).performed` flag at each step. -/
  performed : Nat → Bool

/-- The mutable driver state of one run. -/
structure RunState where
  /-- The `previousHash` value (initially the empty string, never equal to a real
  fingerprint; modelled as `none`). -/
  previousHash : Option Nat
  sameHashCount : Nat
  noActionCount : Nat
  emailReached : Bool
  totalSteps : Nat
  reachedPaywall : Bool
deriving DecidableEq

/-- State at the start of a run. -/
def initRunState : RunState :=
  { previousHash := none, sameHashCount := 0, noActionCount := 0,
    emailReached := false, totalSteps := 0, reachedPaywall := false }

/-- Why the loop ended. -/
inductive StopReason
  /-- The `for` bound or one of the two step-budget gates. -/
  | budget
  /-- Paywall classified: success short-circuit. -/
  | paywall
  /-- Repeated fingerprint with corroborating no-action count. -/
  | loopDetected
  /-- No action performed twice in a row. -/
  | noAction
deriving DecidableEq

/-- Outcome of one loop iteration: stop with a reason, or continue. -/
inductive StepOut
  | halt (r : StopReason) (st : RunState)
  | next (st : RunState)
deriving DecidableEq

/-- The state carried out of an iteration. -/
def outState : StepOut → RunState
  | StepOut.halt _ st => st
  | StepOut.next st => st

/-- The forced non-paywall override on step 1 of `runFunnel`. -/
def overrideStep1 (step : Nat) (t : ScreenType) : ScreenType :=
  if step = 1 ∧ t = ScreenType.paywall then ScreenType.other else t

/-- Count the step and mark email-seen (`totalSteps += 1`,
`emailReached ||= type === email`). -/
def recordStep (st : RunState) (ctype : ScreenType) : RunState :=
  { st with
    totalSteps := st.totalSteps + 1,
    emailReached := st.emailReached || decide (ctype = ScreenType.email) }

/-- Fingerprint bookkeeping: an unchanged fingerprint increments the
same-fingerprint counter, a new one resets it to 1. -/
def updateHash (st : RunState) (domHash : Nat) : RunState :=
  { st with
    sameHashCount :=
      if st.previousHash = some domHash then st.sameHashCount + 1 else 1,
    previousHash := some domHash }

/-- Stuck-email Enter rescue: on an email screen with the counter at ≥ 3,
press Enter and re-fingerprint; a changed fingerprint resets the counter. -/
def emailRescue (st : RunState) (ctype : ScreenType)
    (domHash rescueHash : Nat) : RunState :=
  if ctype = ScreenType.email ∧ 3 ≤ st.sameHashCount then
    if rescueHash ≠ domHash then
      { st with sameHashCount := 1, previousHash := some rescueHash }
    else st
  else st

/-- One iteration of the `runFunnel` loop body after the budget gates:
classify (with the step-1 override), count the step, mark email-seen,
short-circuit on paywall, update the fingerprint counters, run the
stuck-email rescue and the loop-detection gate with its rescue, dispatch,
and update the no-action counter. -/
def stepIter (env : DriverEnv) (step : Nat) (st : RunState) : StepOut :=
  let ctype := overrideStep1 step (env.classify step)
  let st1 := recordStep st ctype
  if ctype = ScreenType.paywall then
    StepOut.halt StopReason.paywall { st1 with reachedPaywall := true }
  else
    let domHash := env.hash step
    let st2 := updateHash st1 domHash
    let st3 := emailRescue st2 ctype domHash (env.emailRescueHash step)
    if RUN_CONFIG.sameDomHashLimit ≤ st3.sameHashCount
        ∧ 2 ≤ st3.noActionCount then
      if 8 ≤ step then
        if env.loopRescueHash step ≠ domHash then
          StepOut.next
            { st3 with sameHashCount := 1,
                       previousHash := some (env.loopRescueHash step) }
        else StepOut.halt StopReason.loopDetected st3
      else StepOut.halt StopReason.loopDetected st3
    else
      if env.performed step then
        StepOut.next { st3 with noActionCount := 0 }
      else
        let st4 := { st3 with noActionCount := st3.noActionCount + 1 }
        if 2 ≤ st4.noActionCount then StepOut.halt StopReason.noAction st4
        else StepOut.next st4

/-- The driver loop from a given step with the given fuel (the `for` bound
leaves at most `maxSteps + 15` iterations, so the initial fuel is exact):
apply the two budget gates, run one iteration, recurse. -/
def runLoop (env : DriverEnv) : Nat → Nat → RunState → StopReason × RunState
  | 0, _, st => (StopReason.budget, st)
  | fuel + 1, step, st =>
    if st.emailReached = false ∧ RUN_CONFIG.maxSteps < step then
      (StopReason.budget, st)
    else if st.emailReached = true ∧ RUN_CONFIG.maxSteps + 15 < step then
      (StopReason.budget, st)
    else
      match stepIter env step st with
      | StepOut.halt r st' => (r, st')
      | StepOut.next st' => runLoop env fuel (step + 1) st'

/-- One funnel run (the driver loop of `runFunnel` from step 1). -/
def runFunnel (env : DriverEnv) : StopReason × RunState :=
  runLoop env (RUN_CONFIG.maxSteps + 15) 1 initRunState

/-! ## Concrete documents and environments used by witnesses -/

/-- The §8 immediate-paywall scenario: step-1 document with price text
`$49` and a `Subscribe Now` button, and nothing else. -/
def c4ScenarioDoc : Doc :=
  { content := "$49 subscribe now"
    ctaTexts := ["Subscribe Now"]
    visibleButtonTexts := ["Subscribe Now"]
    hasEmailType := false
    hasEmailAutocomplete := false
    hasEmailName := false
    hasEmailPlaceholder := false
    radioCount := 0
    checkboxCount := 0
    visibleTextInputCount := 0
    profileHintInputCount := 0
    bodyTextRaw := "$49 Subscribe Now"
    optionCardCount := 0
    hasAnyVisibleInput := false }

/-- A document satisfying every paywall predicate (a price match, a
purchase-keyword control, billing vocabulary) that also carries an
email-typed input. -/
def paywallEmailDoc : Doc :=
  { c4ScenarioDoc with
    content := "$49 subscribe now premium trial subscription"
    hasEmailType := true }

/-- The §8 deep-funnel soft-paywall scenario: no price tokens, body text
`Choose your plan`, one control labeled `Start Trial`. -/
def c6ScenarioDoc : Doc :=
  { c4ScenarioDoc with
    content := "choose your plan start trial"
    ctaTexts := ["Start Trial"]
    visibleButtonTexts := ["Start Trial"]
    bodyTextRaw := "Choose your plan Start Trial" }

/-- The same screen with the control relabeled `Start My Plan`, which does
match the purchase-keyword list. -/
def c6PurchaseCtaDoc : Doc :=
  { c6ScenarioDoc with ctaTexts := ["Start My Plan"] }

/-- A question screen: two radio controls and two visible text inputs. -/
def c5WitnessDoc : Doc :=
  { c4ScenarioDoc with
    content := "pick one"
    ctaTexts := []
    visibleButtonTexts := []
    bodyTextRaw := "Pick one"
    radioCount := 2
    visibleTextInputCount := 2
    hasAnyVisibleInput := true }

/-- Four ambiguous candidate labels (no smart keyword occurs in any). -/
def ambiguousCands4 : List String := ["north", "south", "east", "west"]

/-- A run whose dispatcher performs an action on every step and that never
reaches a paywall or an email screen. -/
def allPerformedEnv : DriverEnv :=
  { classify := fun _ => ScreenType.question
    hash := fun _ => 7
    emailRescueHash := fun _ => 7
    loopRescueHash := fun _ => 7
    performed := fun _ => true }

/-- A run whose dispatcher never performs an action. -/
def neverPerformedEnv : DriverEnv :=
  { allPerformedEnv with
    classify := fun _ => ScreenType.other
    performed := fun _ => false }

/-- A state about to trip the loop-detection gate: the previous fingerprint
equals the next one, the same-fingerprint counter is one below the limit and
the no-action counter is at the threshold. -/
def loopGateState : RunState :=
  { previousHash := some 7, sameHashCount := 11, noActionCount := 2,
    emailReached := false, totalSteps := 5, reachedPaywall := false }

/-- The state in which the loop-detection stop then fires. -/
def loopGateHaltState : RunState :=
  { previousHash := some 7, sameHashCount := 12, noActionCount := 2,
    emailReached := false, totalSteps := 6, reachedPaywall := false }

/-- Email-branch observations where the field is filled, a submit control
is clicked and the form is JS-submitted, but no snapshot change is ever
observed and no continue CTA exists. -/
def emailNoTransitionEnv : EmailEnv :=
  { chainEmailVisible := true
    afterEnterChanged := false
    submitButtonVisible := true
    submitClickOk := true
    afterCtaChanged := false
    genericSubmitVisible := false
    genericClickOk := false
    afterGenericChanged := false
    jsFormFound := true
    emailTypeCount := 1
    emailTypeVisible := true
    emailLikeFallbackFound := false
    hintEmailFillOk := false
    hintFillMessages := []
    consentLabelCount := 0
    consentUnchecked := []
    continueClickOk := false
    popupMessages := [] }

/-- Email-branch observations where the Enter rescue visibly changes the
snapshot. -/
def emailTransitionEnv : EmailEnv :=
  { emailNoTransitionEnv with afterEnterChanged := true }

/-- Question-branch observations with nothing clickable at all. -/
def questionBareEnv : QuestionEnv :=
  { radioOrCheckboxCount := 0
    optionLabelClicked := false
    optionLabelMessages := []
    optionButtonClicked := false
    optionButtonMessages := []
    optionCardClicked := false
    optionCardMessages := []
    questionCtaClicked := false
    popupMessages := [] }

/-! ## Driver loop lemmas -/

/-- Lemma: `recordStep` counts exactly one step. -/
theorem recordStep_totalSteps (st : RunState) (c : ScreenType) :
    (recordStep st c).totalSteps = st.totalSteps + 1 := rfl

/-- Lemma: `recordStep` leaves the no-action counter alone. -/
theorem recordStep_noActionCount (st : RunState) (c : ScreenType) :
    (recordStep st c).noActionCount = st.noActionCount := rfl

/-- Lemma: `recordStep` never unsets `emailReached`. -/
theorem recordStep_emailReached_true (st : RunState) (c : ScreenType)
    (h : st.emailReached = true) : (recordStep st c).emailReached = true := by
  simp [recordStep, h]

/-- Lemma: `updateHash` leaves the step counter alone. -/
theorem updateHash_totalSteps (st : RunState) (d : Nat) :
    (updateHash st d).totalSteps = st.totalSteps := rfl

/-- Lemma: `updateHash` leaves the no-action counter alone. -/
theorem updateHash_noActionCount (st : RunState) (d : Nat) :
    (updateHash st d).noActionCount = st.noActionCount := rfl

/-- Lemma: `updateHash` leaves `emailReached` alone. -/
theorem updateHash_emailReached (st : RunState) (d : Nat) :
    (updateHash st d).emailReached = st.emailReached := rfl

/-- Lemma: `emailRescue` leaves the step counter alone. -/
theorem emailRescue_totalSteps (st : RunState) (c : ScreenType)
    (d r : Nat) : (emailRescue st c d r).totalSteps = st.totalSteps := by
  unfold emailRescue; split_ifs <;> rfl

/-- Lemma: `emailRescue` leaves the no-action counter alone. -/
theorem emailRescue_noActionCount (st : RunState) (c : ScreenType)
    (d r : Nat) : (emailRescue st c d r).noActionCount = st.noActionCount := by
  unfold emailRescue; split_ifs <;> rfl

/-- Lemma: `emailRescue` leaves `emailReached` alone. -/
theorem emailRescue_emailReached (st : RunState) (c : ScreenType)
    (d r : Nat) : (emailRescue st c d r).emailReached = st.emailReached := by
  unfold emailRescue; split_ifs <;> rfl

/-- Every executed iteration counts exactly one step. -/
theorem stepIter_totalSteps (env : DriverEnv) (step : Nat) (st : RunState) :
    (outState (stepIter env step st)).totalSteps = st.totalSteps + 1 := by
  simp only [stepIter]
  split_ifs <;>
    simp [outState, emailRescue_totalSteps, updateHash_totalSteps,
      recordStep_totalSteps]

/-- Lemma: `emailReached` is never unset by an iteration. -/
theorem stepIter_email_mono (env : DriverEnv) (step : Nat) (st : RunState)
    (h : st.emailReached = true) :
    (outState (stepIter env step st)).emailReached = true := by
  simp only [stepIter]
  split_ifs <;>
    simp [outState, emailRescue_emailReached, updateHash_emailReached,
      recordStep_emailReached_true, h, recordStep]

/-- The run performs at most `fuel` more iterations. -/
theorem runLoop_totalSteps (env : DriverEnv) :
    ∀ (fuel step : Nat) (st : RunState),
      (runLoop env fuel step st).2.totalSteps ≤ st.totalSteps + fuel := by
  intro fuel
  induction fuel with
  | zero => intro step st; simp [runLoop]
  | succ n ih =>
    intro step st
    simp only [runLoop]
    split_ifs with h1 h2
    · simp
    · simp
    · cases hs : stepIter env step st with
      | halt r st' =>
        have ht := stepIter_totalSteps env step st
        rw [hs] at ht
        simp only [outState] at ht
        simp only []
        omega
      | next st' =>
        have ht := stepIter_totalSteps env step st
        rw [hs] at ht
        simp only [outState] at ht
        have hb := ih (step + 1) st'
        simp only []
        omega

/-- Lemma: `emailReached` is never unset across the loop. -/
theorem runLoop_email_mono (env : DriverEnv) :
    ∀ (fuel step : Nat) (st : RunState), st.emailReached = true →
      (runLoop env fuel step st).2.emailReached = true := by
  intro fuel
  induction fuel with
  | zero => intro step st h; simpa [runLoop] using h
  | succ n ih =>
    intro step st h
    simp only [runLoop]
    split_ifs with h1 h2
    · exact h
    · exact h
    · cases hs : stepIter env step st with
      | halt r st' =>
        have hm := stepIter_email_mono env step st h
        rw [hs] at hm
        simpa [outState] using hm
      | next st' =>
        have hm := stepIter_email_mono env step st h
        rw [hs] at hm
        simp only [outState] at hm
        exact ih (step + 1) st' hm

/-- A run that never sees an email screen executes no iteration beyond step
`maxSteps`. -/
theorem runLoop_noEmail_bound (env : DriverEnv) :
    ∀ (fuel step : Nat) (st : RunState),
      (runLoop env fuel step st).2.emailReached = false →
      (runLoop env fuel step st).2.totalSteps
        ≤ st.totalSteps + (RUN_CONFIG.maxSteps + 1 - step) := by
  intro fuel
  induction fuel with
  | zero => intro step st _; simp [runLoop]
  | succ n ih =>
    intro step st h
    simp only [runLoop] at h ⊢
    split_ifs at h ⊢ with h1 h2
    · simp
    · rw [h2.1] at h; exact absurd h (by simp)
    · have hm : st.emailReached = false := by
        by_contra hc
        have hct : st.emailReached = true := by
          revert hc; cases st.emailReached <;> simp
        cases hs : stepIter env step st with
        | halt r st' =>
          rw [hs] at h
          have hmm := stepIter_email_mono env step st hct
          rw [hs] at hmm
          simp only [outState] at hmm
          simp only [] at h
          rw [hmm] at h
          exact absurd h (by simp)
        | next st' =>
          rw [hs] at h
          have hm1 := stepIter_email_mono env step st hct
          rw [hs] at hm1
          simp only [outState] at hm1
          have hmm := runLoop_email_mono env n (step + 1) st' hm1
          simp only [] at h
          rw [hmm] at h
          exact absurd h (by simp)
      have hstep : step ≤ RUN_CONFIG.maxSteps := by
        by_contra hb
        exact h1 ⟨hm, by omega⟩
      cases hs : stepIter env step st with
      | halt r st' =>
        have ht := stepIter_totalSteps env step st
        rw [hs] at ht
        simp only [outState] at ht
        simp only []
        omega
      | next st' =>
        have ht := stepIter_totalSteps env step st
        rw [hs] at ht
        simp only [outState] at ht
        rw [hs] at h
        simp only [] at h
        have hb := ih (step + 1) st' h
        simp only []
        omega

/-- C1: every funnel run executes a bounded number of loop iterations: at
most `maxSteps` (60) when no email screen is ever classified, at most
`maxSteps + 15` (75) in any case, and the post-email budget strictly
exceeds the pre-email budget. -/
theorem c1_driver_step_budget (env : DriverEnv) :
    (runFunnel env).2.totalSteps ≤ RUN_CONFIG.maxSteps + 15
    ∧ ((runFunnel env).2.emailReached = false →
        (runFunnel env).2.totalSteps ≤ RUN_CONFIG.maxSteps)
    ∧ RUN_CONFIG.maxSteps < RUN_CONFIG.maxSteps + 15
    ∧ RUN_CONFIG.maxSteps = 60 ∧ RUN_CONFIG.maxSteps + 15 = 75 := by
  refine ⟨?_, ?_, by omega, rfl, rfl⟩
  · have hb := runLoop_totalSteps env (RUN_CONFIG.maxSteps + 15) 1 initRunState
    simpa [runFunnel, initRunState] using hb
  · intro h
    have hb := runLoop_noEmail_bound env (RUN_CONFIG.maxSteps + 15) 1 initRunState h
    simp only [runFunnel, initRunState] at hb ⊢
    omega

/-- Witness for C1 at a run that never sees an email screen. -/
theorem c1_driver_step_budget_witness :
    (runFunnel neverPerformedEnv).2.emailReached = false
    ∧ (runFunnel neverPerformedEnv).2.totalSteps ≤ RUN_CONFIG.maxSteps :=
  ⟨by decide, (c1_driver_step_budget neverPerformedEnv).2.1 (by decide)⟩

/-- With a clean no-action counter and a performed action, an iteration
either stops at a paywall or continues with the counter still clean. -/
theorem stepIter_performed_clean (env : DriverEnv) (step : Nat)
    (st : RunState) (h0 : st.noActionCount = 0)
    (hp : env.performed step = true) :
    (∃ st', stepIter env step st = StepOut.halt StopReason.paywall st')
    ∨ (∃ st', stepIter env step st = StepOut.next st'
        ∧ st'.noActionCount = 0) := by
  have hn : (emailRescue (updateHash (recordStep st
      (overrideStep1 step (env.classify step))) (env.hash step))
      (overrideStep1 step (env.classify step)) (env.hash step)
      (env.emailRescueHash step)).noActionCount = 0 := by
    rw [emailRescue_noActionCount, updateHash_noActionCount,
      recordStep_noActionCount, h0]
  simp only [stepIter]
  split_ifs with hPay hGate hLate hResc <;>
    first
      | exact Or.inl ⟨_, rfl⟩
      | exact Or.inr ⟨_, rfl, rfl⟩
      | (rw [hn] at hGate; omega)

/-- With an always-performing dispatcher the loop can only end at a paywall
or by exhausting the step budget. -/
theorem runLoop_allPerformed (env : DriverEnv)
    (hp : ∀ s, env.performed s = true) :
    ∀ (fuel step : Nat) (st : RunState), st.noActionCount = 0 →
      (runLoop env fuel step st).1 = StopReason.paywall
      ∨ (runLoop env fuel step st).1 = StopReason.budget := by
  intro fuel
  induction fuel with
  | zero => intro step st _; simp [runLoop]
  | succ n ih =>
    intro step st h0
    simp only [runLoop]
    split_ifs with h1 h2
    · simp
    · simp
    · rcases stepIter_performed_clean env step st h0 (hp step) with
        ⟨st', hs⟩ | ⟨st', hs, hz⟩
      · rw [hs]; simp
      · rw [hs]; simpa using ih (step + 1) st' hz

/-- C2: the loop-detection stop fires only with both corroborating signals
(the same-fingerprint counter at the configured limit and the no-action
counter at ≥ 2); with a dispatcher that always reports `performed = true`
the run can only end at a paywall or by the step budget. -/
theorem c2_loop_stop_requires_both :
    (∀ (env : DriverEnv) (step : Nat) (st st' : RunState),
        stepIter env step st = StepOut.halt StopReason.loopDetected st' →
        RUN_CONFIG.sameDomHashLimit ≤ st'.sameHashCount
          ∧ 2 ≤ st'.noActionCount)
    ∧ (∀ env : DriverEnv, (∀ s, env.performed s = true) →
        (runFunnel env).1 = StopReason.paywall
        ∨ (runFunnel env).1 = StopReason.budget) := by
  constructor
  · intro env step st st' h
    simp only [stepIter] at h
    split_ifs at h with hPay hGate hLate hResc hPerf hNoA
    all_goals first
      | (rw [StepOut.halt.injEq] at h; exact h.2 ▸ hGate)
      | simp at h
  · intro env hpf
    exact runLoop_allPerformed env hpf (RUN_CONFIG.maxSteps + 15) 1
      initRunState rfl

/-- Witness for C2: a concrete loop-detection stop (both signals hold in
the halting state) and a concrete all-performing run ending by budget. -/
theorem c2_loop_stop_requires_both_witness :
    (RUN_CONFIG.sameDomHashLimit ≤ loopGateHaltState.sameHashCount
      ∧ 2 ≤ loopGateHaltState.noActionCount)
    ∧ ((runFunnel allPerformedEnv).1 = StopReason.paywall
        ∨ (runFunnel allPerformedEnv).1 = StopReason.budget) :=
  ⟨c2_loop_stop_requires_both.1 allPerformedEnv 2 loopGateState
      loopGateHaltState (by decide),
   c2_loop_stop_requires_both.2 allPerformedEnv (fun _ => rfl)⟩

/-- C10: dispatching the question archetype always reports a performed
action (the unconditional Enter fallback counts as one), and an iteration
whose dispatcher performed an action never increases the no-action counter
and never stops with the no-action reason. -/
theorem c10_question_always_performed :
    (∀ e : QuestionEnv, (handleQuestionAction e).performed = true)
    ∧ (∀ (env : DriverEnv) (step : Nat) (st : RunState),
        env.performed step = true →
        (outState (stepIter env step st)).noActionCount ≤ st.noActionCount
        ∧ ∀ st', stepIter env step st ≠ StepOut.halt StopReason.noAction st') := by
  constructor
  · intro e
    simp only [handleQuestionAction]
    split_ifs with h <;> simp [h]
  · intro env step st hp
    have hn : (emailRescue (updateHash (recordStep st
        (overrideStep1 step (env.classify step))) (env.hash step))
        (overrideStep1 step (env.classify step)) (env.hash step)
        (env.emailRescueHash step)).noActionCount = st.noActionCount := by
      rw [emailRescue_noActionCount, updateHash_noActionCount,
        recordStep_noActionCount]
    constructor
    · simp only [stepIter]
      split_ifs <;>
        simp [outState, hn, recordStep_noActionCount]
    · intro st'
      simp only [stepIter]
      split_ifs <;> simp

/-- Witness for C10: a question screen with nothing clickable still
reports a performed action, and a performed step keeps the counter clean. -/
theorem c10_question_always_performed_witness :
    (handleQuestionAction questionBareEnv).performed = true
    ∧ ((outState (stepIter allPerformedEnv 1 initRunState)).noActionCount
          ≤ initRunState.noActionCount
        ∧ ∀ st', stepIter allPerformedEnv 1 initRunState
            ≠ StepOut.halt StopReason.noAction st') :=
  ⟨c10_question_always_performed.1 questionBareEnv,
   c10_question_always_performed.2 allPerformedEnv 1 initRunState rfl⟩

/-! ## Classifier claims -/

/-- C3: a snapshot matching both the paywall rule and the email rule is
classified `paywall` at any step > 1 (the paywall rule precedes the email
rule). -/
theorem c3_paywall_precedes_email (d : Doc) (step : Nat)
    (hstep : 1 < step) (hpw : strongPaywallSignalB d step = true)
    (_hem : emailSignalB d = true) :
    (classifyScreen d step).type = ScreenType.paywall := by
  simp [classifyScreen, hpw, hstep]

/-- Witness for C3: a priced, billing-worded, subscribe-CTA document with
an email-typed input classifies as paywall at step 2. -/
theorem c3_paywall_precedes_email_witness :
    (classifyScreen paywallEmailDoc 2).type = ScreenType.paywall :=
  c3_paywall_precedes_email paywallEmailDoc 2 (by decide) (by decide)
    (by decide)

/-- Only the first rule of the priority chain produces `paywall`, so a
paywall classification forces its gate (step > 1 and the strong signal). -/
theorem classify_paywall_needs_gate (d : Doc) (step : Nat)
    (hc : (classifyScreen d step).type = ScreenType.paywall) :
    (decide (1 < step) && strongPaywallSignalB d step) = true := by
  by_contra hfalse
  unfold classifyScreen at hc
  rw [if_neg hfalse] at hc
  by_cases h1 : d.hasEmailType = true
  · rw [if_pos h1] at hc; exact ScreenType.noConfusion hc
  rw [if_neg h1] at hc
  by_cases h2 : d.hasEmailAutocomplete = true
  · rw [if_pos h2] at hc; exact ScreenType.noConfusion hc
  rw [if_neg h2] at hc
  by_cases h3 : d.hasEmailName = true
  · rw [if_pos h3] at hc; exact ScreenType.noConfusion hc
  rw [if_neg h3] at hc
  by_cases h4 : d.hasEmailPlaceholder = true
  · rw [if_pos h4] at hc; exact ScreenType.noConfusion hc
  rw [if_neg h4] at hc
  by_cases h5 : (!hasRadioOrCheckboxB d
      && (decide (1 ≤ d.visibleTextInputCount)
          || decide (1 ≤ d.profileHintInputCount))) = true
  · rw [if_pos h5] at hc; exact ScreenType.noConfusion hc
  rw [if_neg h5] at hc
  by_cases h6 : (!hasRadioOrCheckboxB d
      && inputKeywordsTest (bodyTextChars d)) = true
  · rw [if_pos h6] at hc; exact ScreenType.noConfusion hc
  rw [if_neg h6] at hc
  by_cases h7 : (decide (2 ≤ d.radioCount) || decide (2 ≤ d.checkboxCount)
      || decide (2 ≤ d.radioCount + d.checkboxCount)) = true
  · rw [if_pos h7] at hc; exact ScreenType.noConfusion hc
  rw [if_neg h7] at hc
  by_cases h8 : decide (2 ≤ countOptionLikeButtons d.visibleButtonTexts) = true
  · rw [if_pos h8] at hc; exact ScreenType.noConfusion hc
  rw [if_neg h8] at hc
  by_cases h9 : decide (2 ≤ d.optionCardCount) = true
  · rw [if_pos h9] at hc; exact ScreenType.noConfusion hc
  rw [if_neg h9] at hc
  by_cases h10 : (!d.hasAnyVisibleInput
      && decide (d.radioCount + d.checkboxCount = 0)
      && decide (d.visibleButtonTexts.length = 1)
      && decide (20 < (bodyTextChars d).length)) = true
  · rw [if_pos h10] at hc; exact ScreenType.noConfusion hc
  rw [if_neg h10] at hc
  exact ScreenType.noConfusion hc

/-- C4 counterexample: a document satisfying every paywall predicate (a
price match, a purchase-keyword control, billing vocabulary) that also has
an email-typed input classifies at step 1 as `email`, not `other`. -/
theorem c4_counterexample :
    (1 ≤ priceMatchCount paywallEmailDoc
      ∧ 1 ≤ paywallCtaCount paywallEmailDoc
      ∧ hasPaywallTextB paywallEmailDoc = true
      ∧ strongPaywallSignalB paywallEmailDoc 2 = true)
    ∧ (classifyScreen paywallEmailDoc 1).type = ScreenType.email
    ∧ ¬(classifyScreen paywallEmailDoc 1).type = ScreenType.other := by
  decide

/-- C4 (amended): at step 1 no document is classified `paywall` — neither
by the classifier (the paywall rule requires step > 1) nor through the
driver override — and the §8 scenario document (price text `$49`, a
`Subscribe Now` button, nothing else) classifies as `other`. -/
theorem c4_first_step_never_paywall :
    (∀ d : Doc, (classifyScreen d 1).type ≠ ScreenType.paywall)
    ∧ (∀ t : ScreenType, overrideStep1 1 t ≠ ScreenType.paywall)
    ∧ (classifyScreen c4ScenarioDoc 1).type = ScreenType.other := by
  refine ⟨?_, ?_, by decide⟩
  · intro d hc
    have hg := classify_paywall_needs_gate d 1 hc
    simp at hg
  · intro t
    cases t <;> decide

/-- Witness for C4 (amended) at concrete inputs. -/
theorem c4_first_step_never_paywall_witness :
    (classifyScreen paywallEmailDoc 1).type ≠ ScreenType.paywall
    ∧ overrideStep1 1 ScreenType.paywall ≠ ScreenType.paywall :=
  ⟨c4_first_step_never_paywall.1 paywallEmailDoc,
   c4_first_step_never_paywall.2.1 ScreenType.paywall⟩

/-- C5: with ≥ 2 radio controls and ≥ 2 visible free-text inputs, and
neither the paywall rule nor the email rule matching, the classification is
`question`, never `input`: radio/checkbox presence makes the input rule
inapplicable even though text inputs coexist. -/
theorem c5_radio_dominance (d : Doc) (step : Nat)
    (hr : 2 ≤ d.radioCount) (_hin : 2 ≤ d.visibleTextInputCount)
    (hpw : (decide (1 < step) && strongPaywallSignalB d step) = false)
    (hem : emailSignalB d = false) :
    (classifyScreen d step).type = ScreenType.question := by
  have h1 : 1 ≤ d.radioCount := by omega
  have hrc : hasRadioOrCheckboxB d = true := by
    simp [hasRadioOrCheckboxB, h1]
  simp only [emailSignalB, Bool.or_eq_false_iff] at hem
  obtain ⟨⟨⟨he1, he2⟩, he3⟩, he4⟩ := hem
  simp [classifyScreen, hpw, he1, he2, he3, he4, hrc, hr]

/-- Witness for C5 at a two-radio, two-input document. -/
theorem c5_radio_dominance_witness :
    (classifyScreen c5WitnessDoc 5).type = ScreenType.question :=
  c5_radio_dominance c5WitnessDoc 5 (by decide) (by decide) (by decide)
    (by decide)

/-- C6 counterexample: the §8 deep-funnel scenario document (step 22, no
price tokens, body text `Choose your plan`, a `Start Trial` control) is NOT
classified `paywall` — `Start Trial` matches no purchase keyword, so the
step ≥ 20 rule has no purchase control to count — it classifies as `info`. -/
theorem c6_deep_soft_paywall_counterexample :
    (classifyScreen c6ScenarioDoc 22).type = ScreenType.info
    ∧ ¬(classifyScreen c6ScenarioDoc 22).type = ScreenType.paywall
    ∧ priceMatchCount c6ScenarioDoc = 0
    ∧ lateSoftVocab (lcs c6ScenarioDoc.content) = true
    ∧ paywallKeywordTest ("Start Trial") = false
    ∧ paywallCtaCount c6ScenarioDoc = 0 := by
  decide

/-- C6 (amended): at step ≥ 20 a single purchase-keyword control plus
subscription vocabulary classifies as `paywall` with no price match needed
(`Start Trial` is not a purchase-keyword control; `Start My Plan` is). -/
theorem c6_late_soft_paywall_rule (d : Doc) (step : Nat)
    (hstep : 20 ≤ step) (hcta : 1 ≤ paywallCtaCount d)
    (hvocab : lateSoftVocab (lcs d.content) = true) :
    (classifyScreen d step).type = ScreenType.paywall := by
  have h1 : 1 < step := by omega
  have hsoft : lateStageSoftPaywallB d step = true := by
    simp [lateStageSoftPaywallB, hstep, hcta, hvocab]
  have hstrong : strongPaywallSignalB d step = true := by
    simp [strongPaywallSignalB, hsoft]
  simp [classifyScreen, hstrong, h1]

/-- Witness for C6 (amended): the scenario document with the control
relabeled `Start My Plan` classifies as `paywall` at step 22. -/
theorem c6_late_soft_paywall_rule_witness :
    (classifyScreen c6PurchaseCtaDoc 22).type = ScreenType.paywall :=
  c6_late_soft_paywall_rule c6PurchaseCtaDoc 22 (by decide) (by decide)
    (by decide)

/-! ## Option-selection claims -/

/-- Over a fixed ambiguous 4-candidate list the cursor advances by exactly
one per selection, so after `k` selections it equals `k`. -/
theorem cursorAfter_eq (cands : List String)
    (hs : smartIndex cands = none) (hl : cands.length = 4) :
    ∀ k, cursorAfter cands k = k := by
  intro k
  induction k with
  | zero => rfl
  | succ n ih =>
    simp only [cursorAfter, chooseOptionWithLabel, hs, hl, ih]
    norm_num

/-- C7: across consecutive ambiguous selections with 4 candidates the
rotation picks `k % 4` at the `k`-th selection (0, 1, 2, 3, 0, …), never
repeats an index on the next selection, and the cursor only ever advances
(by one per ambiguous selection, never reset). -/
theorem c7_rotation_fairness (cands : List String)
    (hsmart : smartIndex cands = none) (hlen : cands.length = 4) :
    ∀ k : Nat,
      chosenAt cands k = some (k % 4)
      ∧ chosenAt cands (k + 1) ≠ chosenAt cands k
      ∧ cursorAfter cands (k + 1) = cursorAfter cands k + 1
      ∧ (∀ (s : Nat) (cs : List String),
          s ≤ (chooseOptionWithLabel s cs).2) := by
  have hchosen : ∀ k, chosenAt cands k = some (k % 4) := by
    intro k
    simp only [chosenAt, chooseOptionWithLabel, hsmart, hlen,
      cursorAfter_eq cands hsmart hlen]
    norm_num
  intro k
  refine ⟨hchosen k, ?_, ?_, ?_⟩
  · rw [hchosen k, hchosen (k + 1)]
    simp only [ne_eq, Option.some.injEq]
    omega
  · rw [cursorAfter_eq cands hsmart hlen,
      cursorAfter_eq cands hsmart hlen]
  · intro s cs
    unfold chooseOptionWithLabel
    rcases h : smartIndex cs with _ | i <;> simp
    split_ifs <;> omega

/-- Witness for C7 at four concrete keyword-free labels. -/
theorem c7_rotation_fairness_witness :
    chosenAt ambiguousCands4 1 = some (1 % 4)
    ∧ chosenAt ambiguousCands4 2 ≠ chosenAt ambiguousCands4 1
    ∧ cursorAfter ambiguousCands4 2 = cursorAfter ambiguousCands4 1 + 1
    ∧ (∀ (s : Nat) (cs : List String),
        s ≤ (chooseOptionWithLabel s cs).2) :=
  c7_rotation_fairness ambiguousCands4 (by decide) (by decide) 1

/-- C8 counterexample: card-based selection does not follow the rotating
cursor.  With four keyword-free cards and the cursor at 2, the rotation
policy (as used for radios and buttons) picks index 2, but the card
selector always picks index 1 — and its in-page script never consults or
advances the cursor. -/
theorem c8_card_rotation_counterexample :
    chooseOptionCard ambiguousCands4 = some 1
    ∧ (chooseOptionWithLabel 2 ambiguousCands4).1
        = some (2 % Nat.min ambiguousCands4.length 4)
    ∧ chooseOptionCard ambiguousCands4
        ≠ some (2 % Nat.min ambiguousCands4.length 4) := by
  decide

/-- C8 (amended): radio/checkbox and button selection share the rotating
cursor modulo `min(count, 4)` and advance it; card selection with ≥ 2
candidates and no smart keyword always picks the second card (index 1) and
involves no cursor. -/
theorem c8_option_shape_policies (cands : List String) (shift : Nat)
    (hsmart : smartIndex cands = none) (hlen : 2 ≤ cands.length) :
    chooseOptionCard cands = some 1
    ∧ chooseOptionWithLabel shift cands
        = (some (shift % Nat.min cands.length 4), shift + 1)
    ∧ chooseButtonCandidate shift cands
        = (some (shift % Nat.min cands.length 4), shift + 1) := by
  refine ⟨?_, ?_, ?_⟩ <;>
    simp [chooseOptionCard, chooseOptionWithLabel, chooseButtonCandidate,
      hsmart, hlen]

/-- Witness for C8 (amended) at two concrete keyword-free labels. -/
theorem c8_option_shape_policies_witness :
    chooseOptionCard ["red", "blue"] = some 1
    ∧ chooseOptionWithLabel 5 ["red", "blue"]
        = (some (5 % Nat.min (["red", "blue"] : List String).length 4), 6)
    ∧ chooseButtonCandidate 5 ["red", "blue"]
        = (some (5 % Nat.min (["red", "blue"] : List String).length 4), 6) :=
  c8_option_shape_policies ["red", "blue"] 5 (by decide) (by decide)

/-! ## Email dispatcher claims -/

/-- A chain message contains the transition marker exactly when one of the
three snapshot-change observations held. -/
theorem chain_any_transition (e : EmailEnv) :
    (runEmailSubmitChain e).any
        (fun s => containsSub transitionToken.data s.data)
      = chainTransitionObserved e := by
  rcases e with ⟨cev, aec, sbv, sco, acc, gsv, gco, agc, jff,
    etc2, etv, elf, hef, hfm, clc, cu, cco, pm⟩
  cases cev <;> cases aec <;> cases sbv <;> cases sco <;> cases acc <;>
    cases gsv <;> cases gco <;> cases agc <;> cases jff <;> rfl

/-- C9 counterexample: the email dispatcher fills the email field, clicks
a submit control and JS-submits the form, yet returns `performed = false`,
because no snapshot change was observed and no continue CTA matched —
`performed = false` does not mean "no actionable element was found". -/
theorem c9_email_performed_counterexample :
    ("Filled email=" ++ INPUT_DEFAULTS.email)
        ∈ (handleEmailAction emailNoTransitionEnv).messages
    ∧ "Clicked email submit button."
        ∈ (handleEmailAction emailNoTransitionEnv).messages
    ∧ "Submitted form via JS fallback."
        ∈ (handleEmailAction emailNoTransitionEnv).messages
    ∧ (handleEmailAction emailNoTransitionEnv).performed = false := by
  decide

/-- C9 (amended): for the email archetype with a visible email-typed input,
`performed` is true exactly when the continue-CTA click succeeded or the
submit chain observed a document snapshot change; filling the field,
clicking a submit control or JS-submitting the form does not by itself set
`performed`. -/
theorem c9_email_performed_semantics (e : EmailEnv)
    (hc : 0 < e.emailTypeCount) (hv : e.emailTypeVisible = true) :
    (handleEmailAction e).performed
      = (e.continueClickOk || chainTransitionObserved e) := by
  have hcond : 0 < e.emailTypeCount ∧ e.emailTypeVisible = true := ⟨hc, hv⟩
  have hne : ¬(e.emailTypeCount = 0) := by omega
  simp only [handleEmailAction, if_pos hcond, submitEmailStep, if_neg hne]
  rw [chain_any_transition]

/-- Witness for C9 (amended) at a run whose Enter press visibly changes
the snapshot. -/
theorem c9_email_performed_semantics_witness :
    (handleEmailAction emailTransitionEnv).performed
      = (emailTransitionEnv.continueClickOk
          || chainTransitionObserved emailTransitionEnv) :=
  c9_email_performed_semantics emailTransitionEnv (by decide) (by decide)
